import Mathlib

/-!
Shallow embedding of the authentication core of express-template-quickstart.

Embedded parts:
- the JWT codec of src/utils/jwt.ts (generateAccessToken, generateRefreshToken,
  verifyAccessToken, verifyRefreshToken), with the default secrets and expiries
  from the source ("access-secret"/"refresh-secret", 15 minutes / 7 days);
- the user document of src/models/User.ts (email, hashed password, name,
  refreshToken array, refreshHistory array);
- the login and refresh handlers of src/controllers/authController.ts;
- the updatePassword handler of the user controller.

Conventions: timestamps are milliseconds since the epoch, as JavaScript
Date.now(); JWT iat and exp are whole seconds, as the jsonwebtoken library
produces them (iat = floor(nowMs / 1000), exp = iat + expiry). A signed JWT
string is modelled as its payload together with the secret that signed it;
jsonwebtoken signing is deterministic, so token-string equality coincides with
equality of these records. Errors thrown by jwt.verify are modelled as Except
errors; in the refresh handler they land in the catch block exactly as thrown
exceptions do in the source. The bcrypt collaborator is modelled by an
injective tagging hash, which is all the handlers observe of it.
-/

namespace AuthCore

/-- JWT payload, as the TokenPayload interface of src/utils/jwt.ts. -/
structure TokenPayload where
  userId : String
  email : String
  iat : Nat
  exp : Nat
deriving DecidableEq, Repr

/-- A signed JWT, abstracted as payload plus signing secret. -/
structure SignedToken where
  payload : TokenPayload
  secret : String
deriving DecidableEq, Repr

/-- Default access-token secret (process.env.JWT_ACCESS_SECRET fallback). -/
def accessSecret : String := "access-secret"

/-- Default refresh-token secret (process.env.JWT_REFRESH_SECRET fallback). -/
def refreshSecret : String := "refresh-secret"

/-- Default access-token expiry, 15 minutes, in seconds. -/
def accessExpirySec : Nat := 15 * 60

/-- Default refresh-token expiry, 7 days, in seconds. -/
def refreshExpirySec : Nat := 7 * 24 * 60 * 60

/-- generateAccessToken of src/utils/jwt.ts at a given signing time. -/
def generateAccessToken (userId email : String) (nowMs : Nat) : SignedToken :=
  { payload := { userId := userId, email := email, iat := nowMs / 1000,
                 exp := nowMs / 1000 + accessExpirySec },
    secret := accessSecret }

/-- generateRefreshToken of src/utils/jwt.ts at a given signing time. -/
def generateRefreshToken (userId email : String) (nowMs : Nat) : SignedToken :=
  { payload := { userId := userId, email := email, iat := nowMs / 1000,
                 exp := nowMs / 1000 + refreshExpirySec },
    secret := refreshSecret }

/-- Failures thrown by jwt.verify: bad signature or expired token. -/
inductive JwtError where
  | invalidToken
  | expiredToken
deriving DecidableEq, Repr

/-- jwt.verify against a secret at a clock instant: rejects a wrong signature
first, then an expired token (expired when floor(nowMs/1000) has reached exp),
otherwise yields the payload. -/
def jwtVerify (secret : String) (t : SignedToken) (nowMs : Nat) :
    Except JwtError TokenPayload :=
  if t.secret ≠ secret then .error .invalidToken
  else if t.payload.exp ≤ nowMs / 1000 then .error .expiredToken
  else .ok t.payload

/-- verifyAccessToken of src/utils/jwt.ts. -/
def verifyAccessToken (t : SignedToken) (nowMs : Nat) : Except JwtError TokenPayload :=
  jwtVerify accessSecret t nowMs

/-- verifyRefreshToken of src/utils/jwt.ts. -/
def verifyRefreshToken (t : SignedToken) (nowMs : Nat) : Except JwtError TokenPayload :=
  jwtVerify refreshSecret t nowMs

/-- One element of the refreshToken array of the User schema. -/
structure RefreshTokenEntry where
  token : SignedToken
  createdAt : Nat
  lastUsedAt : Nat
deriving DecidableEq, Repr

/-- One element of the refreshHistory array of the User schema. -/
structure HistoryEntry where
  token : SignedToken
  lastUsedAt : Nat
deriving DecidableEq, Repr

/-- The User document of src/models/User.ts. The password field stores the
bcrypt hash (the pre-save hook hashes before storage). -/
structure UserDoc where
  id : String
  email : String
  name : String
  password : String
  refreshToken : List RefreshTokenEntry
  refreshHistory : List HistoryEntry
deriving DecidableEq, Repr

/-- The backing store: the collection of user documents. -/
abbrev DB := List UserDoc

/-- User.findById. -/
def findById (db : DB) (uid : String) : Option UserDoc :=
  db.find? (fun u => u.id == uid)

/-- User.findOne by email. -/
def findByEmail (db : DB) (em : String) : Option UserDoc :=
  db.find? (fun u => u.email == em)

/-- Atomic single-document update by id (findByIdAndUpdate / save). -/
def updateById (db : DB) (uid : String) (f : UserDoc → UserDoc) : DB :=
  db.map (fun u => if u.id == uid then f u else u)

/-- Model of the external bcrypt collaborator: hashing tags the plaintext, so
distinct plaintexts hash distinctly, which is all the handlers observe. -/
def bcryptHash (plain : String) : String := "$2a$10$" ++ plain

/-- comparePassword of the User model: bcrypt.compare of the candidate against
the stored hash. -/
def comparePassword (stored candidate : String) : Bool :=
  stored == bcryptHash candidate

/-- Observable outcome of the login handler: HTTP status, body message, the
access token in the body, the Set-Cookie refresh token, and the store after
the call. -/
structure LoginOutcome where
  status : Nat
  message : String
  accessToken : Option SignedToken
  setCookie : Option SignedToken
  db : DB
deriving DecidableEq, Repr

/-- The login handler of src/controllers/authController.ts: look the user up by
email, compare the password, and on success mint a token pair, append the new
refresh entry to the document and set the cookie. User absent and password
mismatch produce the identical 401 response, and neither touches the store. -/
def login (db : DB) (em pw : String) (nowMs : Nat) : LoginOutcome :=
  match findByEmail db em with
  | none =>
    { status := 401, message := "Invalid credentials",
      accessToken := none, setCookie := none, db := db }
  | some user =>
    if comparePassword user.password pw then
      let accessToken := generateAccessToken user.id user.email nowMs
      let refreshTok := generateRefreshToken user.id user.email nowMs
      let user2 := { user with
        refreshToken := user.refreshToken ++
          [{ token := refreshTok, createdAt := nowMs, lastUsedAt := nowMs }] }
      { status := 200, message := "Login successfuly",
        accessToken := some accessToken, setCookie := some refreshTok,
        db := updateById db user.id (fun _ => user2) }
    else
      { status := 401, message := "Invalid credentials",
        accessToken := none, setCookie := none, db := db }

/-- Observable outcome of the refresh handler: HTTP status, body message,
whether the refresh cookie was cleared, the new cookie if one was set, the new
access token, and the store after the call. -/
structure RefreshOutcome where
  status : Nat
  message : String
  clearedCookie : Bool
  setCookie : Option SignedToken
  accessToken : Option SignedToken
  db : DB
deriving DecidableEq, Repr

/-- Seven days in milliseconds, the absolute refresh-token lifetime used by the
refresh handler. -/
def sevenDaysMs : Nat := 7 * 24 * 60 * 60 * 1000

/-- The refresh handler of src/controllers/authController.ts, translated
branch by branch:
- no cookie: 401, cookie left alone;
- jwt.verify throws (bad signature or expired): the exception reaches the
  catch block, which clears the cookie and answers 500;
- user of the decoded subject id absent: clear cookie, 403 User not found;
- presented token absent from the refreshToken array: consult refreshHistory
  for any entry whose lastUsedAt is within 30 seconds of now (the source never
  compares the stored token string). With no such entry, clear the cookie and
  either answer 401 Session expired (decoded iat plus 7 days already passed)
  or answer 403 Security check failed; in the 403 branch the revocation update
  targets the misspelled path refrehToken, which the schema strips, so the
  document is left unchanged;
- otherwise (entry found, or grace granted): prune entries older than 7 days,
  clear refreshHistory and pull the presented token, mint a new pair, push the
  new refresh entry and the history record of the presented token, set the new
  cookie and answer 200. -/
def refresh (db : DB) (cookie : Option SignedToken) (nowMs : Nat) : RefreshOutcome :=
  match cookie with
  | none =>
    { status := 401, message := "No refresh token provided",
      clearedCookie := false, setCookie := none, accessToken := none, db := db }
  | some presented =>
    match verifyRefreshToken presented nowMs with
    | .error _ =>
      { status := 500, message := "Server error during token refresh",
        clearedCookie := true, setCookie := none, accessToken := none, db := db }
    | .ok decoded =>
      match findById db decoded.userId with
      | none =>
        { status := 403, message := "User not found.",
          clearedCookie := true, setCookie := none, accessToken := none, db := db }
      | some user =>
        match user.refreshToken.find? (fun e => e.token == presented),
              user.refreshHistory.find?
                (fun t => decide (nowMs - t.lastUsedAt < 30 * 1000)) with
        | none, none =>
          if decoded.iat * 1000 + sevenDaysMs < nowMs then
            { status := 401, message := "Session expired. Please log in again.",
              clearedCookie := true, setCookie := none, accessToken := none,
              db := db }
          else
            { status := 403, message := "Security check failed. Please log in again.",
              clearedCookie := true, setCookie := none, accessToken := none,
              db := db }
        | _, _ =>
          let pruned := user.refreshToken.filter
            (fun e => !decide (e.createdAt < nowMs - sevenDaysMs))
          let afterPull := pruned.filter (fun e => !(e.token == presented))
          let newAccessToken := generateAccessToken user.id user.email nowMs
          let newRefreshTok := generateRefreshToken user.id user.email nowMs
          let user2 := { user with
            refreshToken := afterPull ++
              [{ token := newRefreshTok, createdAt := nowMs, lastUsedAt := nowMs }],
            refreshHistory := [{ token := presented, lastUsedAt := nowMs }] }
          { status := 200, message := "Token refreshed successfully",
            clearedCookie := false, setCookie := some newRefreshTok,
            accessToken := some newAccessToken,
            db := updateById db user.id (fun _ => user2) }

/-- Observable outcome of the updatePassword handler. -/
structure PasswordOutcome where
  status : Nat
  message : String
  db : DB
deriving DecidableEq, Repr

/-- The updatePassword handler of the user controller: load the user of the
authenticated id, re-verify the current password, then store the new hash and
set the refreshToken array to empty. The refreshHistory array is not touched.
A wrong current password answers 401 before any write. -/
def updatePassword (db : DB) (uid currentPassword newPassword : String) :
    PasswordOutcome :=
  match findById db uid with
  | none => { status := 404, message := "User not found", db := db }
  | some user =>
    if comparePassword user.password currentPassword then
      let user2 := { user with
        password := bcryptHash newPassword, refreshToken := [] }
      { status := 200,
        message := "Password updated succesfully. Please log in again.",
        db := updateById db uid (fun _ => user2) }
    else
      { status := 401, message := "Current password is incorrect", db := db }

/-! General lemmas about the store and the codec, shared by the claim
theorems below. -/

/-- A found document carries the id it was looked up by. -/
theorem findById_id {db : DB} {uid : String} {u : UserDoc}
    (h : findById db uid = some u) : u.id = uid := by
  have := List.find?_some h
  simpa using this

/-- Looking up the id just updated yields the written document. -/
theorem findById_update_const {db : DB} {uid : String} {u : UserDoc}
    (v : UserDoc) (hu : findById db uid = some u) (hv : v.id = uid) :
    findById (updateById db uid (fun _ => v)) uid = some v := by
  induction db with
  | nil => simp [findById] at hu
  | cons w rest ih =>
    unfold findById at hu
    unfold findById updateById
    simp only [List.map_cons, List.find?] at hu ⊢
    cases h : (w.id == uid) with
    | true => simp [h, hv]
    | false =>
      simp only [h, Bool.false_eq_true, if_false] at hu ⊢
      exact ih hu

/-- find? finds something exactly when any does. -/
theorem find?_isSome_eq_any {α : Type} (l : List α) (p : α → Bool) :
    (l.find? p).isSome = l.any p := by
  induction l with
  | nil => rfl
  | cons a l ih =>
    by_cases h : p a = true
    · simp [List.find?_cons_of_pos _ h, h]
    · simp only [Bool.not_eq_true] at h
      simp [List.find?_cons_of_neg, h, ih]

/-- A successful verification returns the token payload itself. -/
theorem verifyRefreshToken_ok_elim {t : SignedToken} {nowMs : Nat} {p : TokenPayload}
    (h : verifyRefreshToken t nowMs = .ok p) : p = t.payload := by
  unfold verifyRefreshToken jwtVerify at h
  split at h
  · exact absurd h (by simp)
  · split at h
    · exact absurd h (by simp)
    · simpa [eq_comm] using h

/-- A freshly generated refresh token verifies to its payload while its expiry
second has not been reached. -/
theorem verifyRefreshToken_generate (uid em : String) (issueMs nowMs : Nat)
    (h : nowMs / 1000 < issueMs / 1000 + refreshExpirySec) :
    verifyRefreshToken (generateRefreshToken uid em issueMs) nowMs =
      .ok { userId := uid, email := em, iat := issueMs / 1000,
            exp := issueMs / 1000 + refreshExpirySec } := by
  unfold verifyRefreshToken jwtVerify generateRefreshToken
  rw [if_neg (by simp)]
  rw [if_neg (by simpa using Nat.not_le.mpr h)]

/-- Two refresh tokens generated in different whole seconds differ. -/
theorem generateRefreshToken_beq_false (uid em : String) (s t : Nat)
    (h : s / 1000 ≠ t / 1000) :
    (generateRefreshToken uid em s == generateRefreshToken uid em t) = false := by
  rw [beq_eq_false_iff_ne]
  intro hcontra
  apply h
  have : (generateRefreshToken uid em s).payload.iat =
      (generateRefreshToken uid em t).payload.iat := by rw [hcontra]
  simpa [generateRefreshToken] using this

/-- If verification throws, the refresh handler lands in its catch block:
500, cookie cleared, store untouched. -/
theorem refresh_error_eq (db : DB) (tok : SignedToken) (nowMs : Nat)
    (e : JwtError) (hv : verifyRefreshToken tok nowMs = .error e) :
    refresh db (some tok) nowMs =
      { status := 500, message := "Server error during token refresh",
        clearedCookie := true, setCookie := none, accessToken := none,
        db := db } := by
  simp only [refresh, hv]

/-- A verified token whose subject id matches no user: cookie cleared, 403,
store untouched. -/
theorem refresh_no_user_eq (db : DB) (tok : SignedToken) (nowMs : Nat)
    (p : TokenPayload)
    (hv : verifyRefreshToken tok nowMs = .ok p)
    (hu : findById db p.userId = none) :
    refresh db (some tok) nowMs =
      { status := 403, message := "User not found.", clearedCookie := true,
        setCookie := none, accessToken := none, db := db } := by
  simp only [refresh, hv, hu]

/-- When the presented token is absent from the ACTIVE array, the outcome is
decided by the history timestamps alone: 200 exactly when some history entry
was retired within the 30-second grace window, whatever token it records. -/
theorem refresh_absent_status_iff (db : DB) (presented : SignedToken)
    (nowMs : Nat) (p : TokenPayload) (u : UserDoc)
    (hv : verifyRefreshToken presented nowMs = .ok p)
    (hu : findById db p.userId = some u)
    (habs : u.refreshToken.find? (fun e => e.token == presented) = none) :
    ((refresh db (some presented) nowMs).status = 200 ↔
      u.refreshHistory.any (fun t => decide (nowMs - t.lastUsedAt < 30 * 1000)) = true) := by
  have hany := find?_isSome_eq_any u.refreshHistory
    (fun t => decide (nowMs - t.lastUsedAt < 30 * 1000))
  simp only [refresh, hv, hu, habs]
  cases hgr : u.refreshHistory.find?
      (fun t => decide (nowMs - t.lastUsedAt < 30 * 1000)) with
  | none =>
    rw [hgr] at hany
    simp only [Option.isSome_none] at hany
    rw [← hany]
    simp only [Bool.false_eq_true, iff_false]
    split <;> simp
  | some e =>
    rw [hgr] at hany
    simp only [Option.isSome_some] at hany
    rw [← hany]
    simp

/-- When the presented token is absent from the ACTIVE array and no history
entry is within the grace window, the rotation does not succeed. -/
theorem refresh_absent_no_grace_not_200 (db : DB) (presented : SignedToken)
    (nowMs : Nat) (p : TokenPayload) (u : UserDoc)
    (hv : verifyRefreshToken presented nowMs = .ok p)
    (hu : findById db p.userId = some u)
    (habs : u.refreshToken.find? (fun e => e.token == presented) = none)
    (hgr : u.refreshHistory.find?
      (fun t => decide (nowMs - t.lastUsedAt < 30 * 1000)) = none) :
    (((refresh db (some presented) nowMs).status == 200) = false) := by
  simp only [refresh, hv, hu, habs, hgr]
  split <;> rfl

/-- Successful rotation (token found in ACTIVE, or grace granted): prune
entries older than 7 days, pull the presented token, replace the history with
the record of the presented token, mint and push a new pair, answer 200. -/
theorem refresh_success_eq (db : DB) (presented : SignedToken) (nowMs : Nat)
    (p : TokenPayload) (u : UserDoc)
    (hv : verifyRefreshToken presented nowMs = .ok p)
    (hu : findById db p.userId = some u)
    (hgo : u.refreshToken.find? (fun e => e.token == presented) ≠ none ∨
        u.refreshHistory.find?
          (fun t => decide (nowMs - t.lastUsedAt < 30 * 1000)) ≠ none) :
    refresh db (some presented) nowMs =
      { status := 200, message := "Token refreshed successfully",
        clearedCookie := false,
        setCookie := some (generateRefreshToken u.id u.email nowMs),
        accessToken := some (generateAccessToken u.id u.email nowMs),
        db := updateById db u.id (fun _ =>
          { u with
            refreshToken :=
              ((u.refreshToken.filter
                  (fun e => !decide (e.createdAt < nowMs - sevenDaysMs))).filter
                  (fun e => !(e.token == presented))) ++
                [{ token := generateRefreshToken u.id u.email nowMs, createdAt := nowMs, lastUsedAt := nowMs }],
            refreshHistory := [{ token := presented, lastUsedAt := nowMs }] }) } := by
  simp only [refresh, hv, hu]
  cases h1 : u.refreshToken.find? (fun e => e.token == presented) with
  | some e => rfl
  | none =>
    cases h2 : u.refreshHistory.find?
        (fun t => decide (nowMs - t.lastUsedAt < 30 * 1000)) with
    | none =>
      rcases hgo with hgo | hgo
      · exact absurd h1 hgo
      · exact absurd h2 hgo
    | some e => rfl

/-! Concrete fixtures used by witnesses and counterexamples. -/

/-- A stored demo user with the given token collections. -/
def demoUser (active : List RefreshTokenEntry) (hist : List HistoryEntry) : UserDoc :=
  { id := "u1", email := "a@x.com", name := "Ann",
    password := bcryptHash "pw123456", refreshToken := active,
    refreshHistory := hist }

/-- An active refresh token of the demo user issued at 100 s. -/
def activeTokA : SignedToken := generateRefreshToken "u1" "a@x.com" 100000

/-- An active refresh token of the demo user issued at 200 s. -/
def activeTokB : SignedToken := generateRefreshToken "u1" "a@x.com" 200000

/-- Store for the reuse scenario: both demo tokens active, empty history. -/
def reuseDb : DB :=
  [demoUser
    [{ token := activeTokA, createdAt := 100000, lastUsedAt := 100000 },
     { token := activeTokB, createdAt := 200000, lastUsedAt := 200000 }] []]

/-! Claim theorems. -/

/-- C1 (code bug): presenting a verified, unexpired refresh token that is in
neither the ACTIVE set nor a fresh grace-window history entry answers 403
Security check failed with the cookie cleared, but the store is left exactly
as it was: the revocation update targets the misspelled path refrehToken and
is stripped by the schema, so the ACTIVE set is NOT emptied and a different
previously-issued active token still rotates successfully afterwards. -/
theorem refresh_reuse_leaves_active_untouched :
    (refresh reuseDb (some (generateRefreshToken "u1" "a@x.com" 0)) 1000000).status = 403 ∧
    (refresh reuseDb (some (generateRefreshToken "u1" "a@x.com" 0)) 1000000).message =
      "Security check failed. Please log in again." ∧
    (refresh reuseDb (some (generateRefreshToken "u1" "a@x.com" 0)) 1000000).clearedCookie = true ∧
    (refresh reuseDb (some (generateRefreshToken "u1" "a@x.com" 0)) 1000000).db = reuseDb ∧
    (refresh (refresh reuseDb (some (generateRefreshToken "u1" "a@x.com" 0)) 1000000).db
        (some activeTokB) 1100000).status = 200 :=
  ⟨rfl, rfl, rfl, rfl, rfl⟩

/-- C2 (amended): when the presented token is absent from the ACTIVE set, the
grace path accepts it exactly when SOME history entry has a retirement
timestamp within 30 seconds of now; the recorded token string is never
compared against the presented token. -/
theorem refresh_grace_ignores_token_string (db : DB) (presented : SignedToken)
    (nowMs : Nat) (p : TokenPayload) (u : UserDoc)
    (hv : verifyRefreshToken presented nowMs = .ok p)
    (hu : findById db p.userId = some u)
    (habs : u.refreshToken.find? (fun e => e.token == presented) = none) :
    ((refresh db (some presented) nowMs).status = 200 ↔
      u.refreshHistory.any (fun t => decide (nowMs - t.lastUsedAt < 30 * 1000)) = true) :=
  refresh_absent_status_iff db presented nowMs p u hv hu habs

/-- C2 counterexample: a history entry recording a DIFFERENT token, retired
10 seconds ago, grants grace to the presented token, so the rotation
succeeds where the claim says it must not. -/
theorem refresh_grace_ignores_token_string_cex :
    ((generateRefreshToken "u1" "a@x.com" 500000 ==
        generateRefreshToken "u1" "a@x.com" 0) = false) ∧
    (refresh
        [demoUser []
          [{ token := generateRefreshToken "u1" "a@x.com" 500000, lastUsedAt := 990000 }]]
        (some (generateRefreshToken "u1" "a@x.com" 0)) 1000000).status = 200 :=
  ⟨rfl, rfl⟩

/-- C2 witness: the amended statement evaluated at a concrete store. -/
theorem refresh_grace_ignores_token_string_witness :
    ((refresh
        [demoUser []
          [{ token := generateRefreshToken "u1" "a@x.com" 600000, lastUsedAt := 1980000 }]]
        (some (generateRefreshToken "u1" "a@x.com" 0)) 2000000).status = 200 ↔
      ([{ token := generateRefreshToken "u1" "a@x.com" 600000, lastUsedAt := 1980000 }] :
          List HistoryEntry).any
        (fun t => decide (2000000 - t.lastUsedAt < 30 * 1000)) = true) :=
  refresh_grace_ignores_token_string
    [demoUser []
      [{ token := generateRefreshToken "u1" "a@x.com" 600000, lastUsedAt := 1980000 }]]
    (generateRefreshToken "u1" "a@x.com" 0) 2000000
    { userId := "u1", email := "a@x.com", iat := 0, exp := refreshExpirySec }
    (demoUser []
      [{ token := generateRefreshToken "u1" "a@x.com" 600000, lastUsedAt := 1980000 }])
    rfl rfl rfl

/-- C5 (amended): a refresh cookie that fails verification (bad signature or
expired) throws inside the handler and lands in the catch block: the outcome
is HTTP 500 (not 401), the cookie is cleared, and the store is unmodified. -/
theorem refresh_bad_token_500 (db : DB) (tok : SignedToken) (nowMs : Nat)
    (e : JwtError) (hv : verifyRefreshToken tok nowMs = .error e) :
    refresh db (some tok) nowMs =
      { status := 500, message := "Server error during token refresh",
        clearedCookie := true, setCookie := none, accessToken := none,
        db := db } :=
  refresh_error_eq db tok nowMs e hv

/-- C5 counterexample: a token signed with the wrong secret is answered with
500, not the 401 the claim states; the cookie is cleared and the store kept. -/
theorem refresh_bad_token_cex :
    (refresh [demoUser [] []]
        (some (generateAccessToken "u1" "a@x.com" 0)) 1000).status = 500 ∧
    (((refresh [demoUser [] []]
        (some (generateAccessToken "u1" "a@x.com" 0)) 1000).status == 401) = false) ∧
    (refresh [demoUser [] []]
        (some (generateAccessToken "u1" "a@x.com" 0)) 1000).clearedCookie = true ∧
    (refresh [demoUser [] []]
        (some (generateAccessToken "u1" "a@x.com" 0)) 1000).db = [demoUser [] []] :=
  ⟨rfl, rfl, rfl, rfl⟩

/-- C5 witness: the amended statement at an expired refresh token. -/
theorem refresh_bad_token_500_witness :
    refresh [demoUser [] []]
        (some (generateRefreshToken "u1" "a@x.com" 0)) 700000000 =
      { status := 500, message := "Server error during token refresh",
        clearedCookie := true, setCookie := none, accessToken := none,
        db := [demoUser [] []] } :=
  refresh_bad_token_500 [demoUser [] []]
    (generateRefreshToken "u1" "a@x.com" 0) 700000000 .expiredToken rfl

/-- C6 (code bug): an 8-day-old refresh token (signed at second 0, presented
at day 8) is rejected by jwt.verify itself, so the handler answers 500 from
its catch block with the cookie cleared and the store untouched; the dedicated
401 Session-expired branch is never reached. -/
theorem refresh_eight_day_token_500 :
    (verifyRefreshToken (generateRefreshToken "u1" "a@x.com" 0) 691200000).toOption
      = none ∧
    refresh [demoUser [] []]
        (some (generateRefreshToken "u1" "a@x.com" 0)) 691200000 =
      { status := 500, message := "Server error during token refresh",
        clearedCookie := true, setCookie := none, accessToken := none,
        db := [demoUser [] []] } :=
  ⟨rfl, rfl⟩

/-- C7 (amended): a verified refresh token whose subject id matches no stored
user is answered with 403 User not found (not the 401 used for a missing or
invalid token); the cookie is cleared and the store unmodified. -/
theorem refresh_unknown_subject_403 (db : DB) (tok : SignedToken) (nowMs : Nat)
    (p : TokenPayload) (hv : verifyRefreshToken tok nowMs = .ok p)
    (hu : findById db p.userId = none) :
    refresh db (some tok) nowMs =
      { status := 403, message := "User not found.", clearedCookie := true,
        setCookie := none, accessToken := none, db := db } :=
  refresh_no_user_eq db tok nowMs p hv hu

/-- C7 counterexample: a valid token for a deleted user draws 403, not 401. -/
theorem refresh_unknown_subject_cex :
    (refresh [] (some (generateRefreshToken "ghost" "g@x.com" 0)) 1000).status = 403 ∧
    (((refresh [] (some (generateRefreshToken "ghost" "g@x.com" 0)) 1000).status
        == 401) = false) :=
  ⟨rfl, rfl⟩

/-- C7 witness: the amended statement at a concrete store. -/
theorem refresh_unknown_subject_403_witness :
    refresh [demoUser [] []]
        (some (generateRefreshToken "nobody" "n@x.com" 0)) 1000 =
      { status := 403, message := "User not found.", clearedCookie := true,
        setCookie := none, accessToken := none, db := [demoUser [] []] } :=
  refresh_unknown_subject_403 [demoUser [] []]
    (generateRefreshToken "nobody" "n@x.com" 0) 1000
    { userId := "nobody", email := "n@x.com", iat := 0, exp := refreshExpirySec }
    rfl rfl

/-- C8: when the user is absent or the password does not compare, login yields
the one identical 401 Invalid-credentials outcome, and the store is returned
unchanged, so no refresh-token entry is created or removed for any user. -/
theorem login_failure_uniform (db : DB) (em pw : String) (nowMs : Nat)
    (h : Option.all (fun u => !comparePassword u.password pw)
      (findByEmail db em) = true) :
    login db em pw nowMs =
      { status := 401, message := "Invalid credentials",
        accessToken := none, setCookie := none, db := db } := by
  unfold login
  cases hf : findByEmail db em with
  | none => rfl
  | some u =>
    rw [hf] at h
    simp only [Option.all] at h
    cases hcb : comparePassword u.password pw with
    | false => simp only [hcb, Bool.false_eq_true, if_false]
    | true => rw [hcb] at h; exact absurd h (by decide)

/-- C8 witness: the unknown-email case and the wrong-password case both give
the identical outcome on a concrete store. -/
theorem login_failure_uniform_witness :
    login [demoUser [] []] "b@x.com" "pw123456" 1000 =
      { status := 401, message := "Invalid credentials",
        accessToken := none, setCookie := none, db := [demoUser [] []] } ∧
    login [demoUser [] []] "a@x.com" "wrongpw" 1000 =
      { status := 401, message := "Invalid credentials",
        accessToken := none, setCookie := none, db := [demoUser [] []] } :=
  ⟨login_failure_uniform [demoUser [] []] "b@x.com" "pw123456" 1000 rfl,
   login_failure_uniform [demoUser [] []] "a@x.com" "wrongpw" 1000 rfl⟩

/-- C9: a token issued by the codec verifies under its own kind to the same
subject id and email while the expiry second has not been reached, fails with
an expiry error once it has, and a token of either kind always fails
verification under the secret of the other kind. -/
theorem tokenCodec_roundtrip_kind_separation (uid em : String)
    (issueMs checkMs : Nat) :
    (checkMs / 1000 < issueMs / 1000 + refreshExpirySec →
      verifyRefreshToken (generateRefreshToken uid em issueMs) checkMs =
        .ok { userId := uid, email := em, iat := issueMs / 1000,
              exp := issueMs / 1000 + refreshExpirySec }) ∧
    (issueMs / 1000 + refreshExpirySec ≤ checkMs / 1000 →
      verifyRefreshToken (generateRefreshToken uid em issueMs) checkMs =
        .error .expiredToken) ∧
    (checkMs / 1000 < issueMs / 1000 + accessExpirySec →
      verifyAccessToken (generateAccessToken uid em issueMs) checkMs =
        .ok { userId := uid, email := em, iat := issueMs / 1000,
              exp := issueMs / 1000 + accessExpirySec }) ∧
    (issueMs / 1000 + accessExpirySec ≤ checkMs / 1000 →
      verifyAccessToken (generateAccessToken uid em issueMs) checkMs =
        .error .expiredToken) ∧
    verifyAccessToken (generateRefreshToken uid em issueMs) checkMs =
      .error .invalidToken ∧
    verifyRefreshToken (generateAccessToken uid em issueMs) checkMs =
      .error .invalidToken := by
  refine ⟨fun h => verifyRefreshToken_generate uid em issueMs checkMs h,
    fun h => ?_, fun h => ?_, fun h => ?_, ?_, ?_⟩
  · unfold verifyRefreshToken jwtVerify generateRefreshToken
    rw [if_neg (by simp), if_pos (by simpa using h)]
  · unfold verifyAccessToken jwtVerify generateAccessToken
    rw [if_neg (by simp), if_neg (by simpa using Nat.not_le.mpr h)]
  · unfold verifyAccessToken jwtVerify generateAccessToken
    rw [if_neg (by simp), if_pos (by simpa using h)]
  · unfold verifyAccessToken jwtVerify generateRefreshToken
    rw [if_pos (by show refreshSecret ≠ accessSecret; decide)]
  · unfold verifyRefreshToken jwtVerify generateAccessToken
    rw [if_pos (by show accessSecret ≠ refreshSecret; decide)]

/-- C9 witness: round trip before expiry, failure after expiry, and cross-kind
rejection at concrete times. -/
theorem tokenCodec_roundtrip_kind_separation_witness :
    verifyRefreshToken (generateRefreshToken "u1" "a@x.com" 5000) 10000 =
      .ok { userId := "u1", email := "a@x.com", iat := 5,
            exp := 5 + refreshExpirySec } ∧
    verifyRefreshToken (generateRefreshToken "u1" "a@x.com" 5000) 700000000 =
      .error .expiredToken ∧
    verifyAccessToken (generateRefreshToken "u1" "a@x.com" 5000) 10000 =
      .error .invalidToken :=
  ⟨(tokenCodec_roundtrip_kind_separation "u1" "a@x.com" 5000 10000).1 (by decide),
   (tokenCodec_roundtrip_kind_separation "u1" "a@x.com" 5000 700000000).2.1 (by decide),
   (tokenCodec_roundtrip_kind_separation "u1" "a@x.com" 5000 10000).2.2.2.2.1⟩

/-- C3 (amended): starting from a state whose only ACTIVE entry holds the
refresh token issued at t0, two rotations with that token at t1 and t2 inside
the grace window both succeed, each minting a fresh token pair; afterwards the
ACTIVE set holds exactly TWO entries (one per minted refresh token), not one;
and a further rotation with the original token at t3, after the grace window
has elapsed, fails. -/
theorem rotate_twice_within_grace (db : DB) (u : UserDoc) (t0 t1 t2 t3 : Nat)
    (hfind : findById db u.id = some u)
    (hact : u.refreshToken =
      [{ token := generateRefreshToken u.id u.email t0, createdAt := t0, lastUsedAt := t0 }])
    (h01 : t0 / 1000 < t1 / 1000)
    (h12 : t1 ≤ t2)
    (hgrace : t2 - t1 < 30 * 1000)
    (hlive : t2 / 1000 < t0 / 1000 + refreshExpirySec)
    (hafter : t2 + 30 * 1000 ≤ t3) :
    (refresh db (some (generateRefreshToken u.id u.email t0)) t1).status = 200 ∧
    (refresh db (some (generateRefreshToken u.id u.email t0)) t1).setCookie =
      some (generateRefreshToken u.id u.email t1) ∧
    (refresh db (some (generateRefreshToken u.id u.email t0)) t1).accessToken =
      some (generateAccessToken u.id u.email t1) ∧
    (refresh (refresh db (some (generateRefreshToken u.id u.email t0)) t1).db
        (some (generateRefreshToken u.id u.email t0)) t2).status = 200 ∧
    (refresh (refresh db (some (generateRefreshToken u.id u.email t0)) t1).db
        (some (generateRefreshToken u.id u.email t0)) t2).setCookie =
      some (generateRefreshToken u.id u.email t2) ∧
    (refresh (refresh db (some (generateRefreshToken u.id u.email t0)) t1).db
        (some (generateRefreshToken u.id u.email t0)) t2).accessToken =
      some (generateAccessToken u.id u.email t2) ∧
    (findById (refresh (refresh db (some (generateRefreshToken u.id u.email t0)) t1).db
        (some (generateRefreshToken u.id u.email t0)) t2).db u.id).map
      (fun w => w.refreshToken.length) = some 2 ∧
    (((refresh (refresh (refresh db (some (generateRefreshToken u.id u.email t0)) t1).db
          (some (generateRefreshToken u.id u.email t0)) t2).db
        (some (generateRefreshToken u.id u.email t0)) t3).status == 200) = false) := by
  have h1le2 : t1 / 1000 ≤ t2 / 1000 := Nat.div_le_div_right h12
  have h1live : t1 / 1000 < t0 / 1000 + refreshExpirySec := lt_of_le_of_lt h1le2 hlive
  have h02 : t0 / 1000 < t2 / 1000 := lt_of_lt_of_le h01 h1le2
  have hne10 : (generateRefreshToken u.id u.email t1 ==
      generateRefreshToken u.id u.email t0) = false :=
    generateRefreshToken_beq_false u.id u.email t1 t0 (Nat.ne_of_lt h01).symm
  have hne20 : (generateRefreshToken u.id u.email t2 ==
      generateRefreshToken u.id u.email t0) = false :=
    generateRefreshToken_beq_false u.id u.email t2 t0 (Nat.ne_of_lt h02).symm
  have hv1 := verifyRefreshToken_generate u.id u.email t0 t1 h1live
  have hv2 := verifyRefreshToken_generate u.id u.email t0 t2 hlive
  have hfound1 : u.refreshToken.find?
      (fun e => e.token == generateRefreshToken u.id u.email t0) ≠ none := by
    rw [hact]
    simp [List.find?]
  have hr1 := refresh_success_eq db (generateRefreshToken u.id u.email t0) t1 _ u
    hv1 hfind (Or.inl hfound1)
  have hk1 : ¬ (t0 < t1 - sevenDaysMs) := by
    unfold refreshExpirySec at h1live
    unfold sevenDaysMs
    omega
  have hlist1 : (([{ token := generateRefreshToken u.id u.email t0, createdAt := t0, lastUsedAt := t0 }] :
          List RefreshTokenEntry).filter
        (fun e => !decide (e.createdAt < t1 - sevenDaysMs))).filter
        (fun e => !(e.token == generateRefreshToken u.id u.email t0)) = [] := by
    simp [List.filter_cons, decide_eq_false hk1]
  rw [hact] at hr1
  rw [hlist1, List.nil_append] at hr1
  have hfind1 : findById (updateById db u.id (fun _ =>
      { u with
        refreshToken := [{ token := generateRefreshToken u.id u.email t1, createdAt := t1, lastUsedAt := t1 }],
        refreshHistory := [{ token := generateRefreshToken u.id u.email t0, lastUsedAt := t1 }] })) u.id =
      some { u with
        refreshToken := [{ token := generateRefreshToken u.id u.email t1, createdAt := t1, lastUsedAt := t1 }],
        refreshHistory := [{ token := generateRefreshToken u.id u.email t0, lastUsedAt := t1 }] } :=
    findById_update_const _ hfind rfl
  have habs2 : ({ u with
      refreshToken := [{ token := generateRefreshToken u.id u.email t1, createdAt := t1, lastUsedAt := t1 }],
      refreshHistory := [{ token := generateRefreshToken u.id u.email t0, lastUsedAt := t1 }] } : UserDoc).refreshToken.find?
      (fun e => e.token == generateRefreshToken u.id u.email t0) = none := by
    dsimp only
    simp [List.find?, hne10]
  have hgr2 : ({ u with
      refreshToken := [{ token := generateRefreshToken u.id u.email t1, createdAt := t1, lastUsedAt := t1 }],
      refreshHistory := [{ token := generateRefreshToken u.id u.email t0, lastUsedAt := t1 }] } : UserDoc).refreshHistory.find?
      (fun t => decide (t2 - t.lastUsedAt < 30 * 1000)) ≠ none := by
    dsimp only
    simp [List.find?, decide_eq_true hgrace]
  have hr2 := refresh_success_eq
    (updateById db u.id (fun _ =>
      { u with
        refreshToken := [{ token := generateRefreshToken u.id u.email t1, createdAt := t1, lastUsedAt := t1 }],
        refreshHistory := [{ token := generateRefreshToken u.id u.email t0, lastUsedAt := t1 }] }))
    (generateRefreshToken u.id u.email t0) t2 _ _ hv2 hfind1 (Or.inr hgr2)
  have hk2 : ¬ (t1 < t2 - sevenDaysMs) := by
    unfold sevenDaysMs
    omega
  have hlist2 : (([{ token := generateRefreshToken u.id u.email t1, createdAt := t1, lastUsedAt := t1 }] :
          List RefreshTokenEntry).filter
        (fun e => !decide (e.createdAt < t2 - sevenDaysMs))).filter
        (fun e => !(e.token == generateRefreshToken u.id u.email t0)) =
      [{ token := generateRefreshToken u.id u.email t1, createdAt := t1, lastUsedAt := t1 }] := by
    simp [List.filter_cons, decide_eq_false hk2, hne10]
  dsimp only at hr2
  rw [hlist2] at hr2
  have hk3 : ¬ (t3 - t2 < 30 * 1000) := by omega
  refine ⟨?_, ?_, ?_, ?_, ?_, ?_, ?_, ?_⟩
  · rw [hr1]
  · rw [hr1]
  · rw [hr1]
  · rw [hr1]
    dsimp only
    rw [hr2]
  · rw [hr1]
    dsimp only
    rw [hr2]
  · rw [hr1]
    dsimp only
    rw [hr2]
  · rw [hr1]
    dsimp only
    rw [hr2]
    dsimp only
    rw [findById_update_const
      ({ u with
         refreshToken :=
           [{ token := generateRefreshToken u.id u.email t1, createdAt := t1, lastUsedAt := t1 }] ++
             [{ token := generateRefreshToken u.id u.email t2, createdAt := t2, lastUsedAt := t2 }],
         refreshHistory := [{ token := generateRefreshToken u.id u.email t0, lastUsedAt := t2 }] } :
        UserDoc) hfind1 rfl]
    rfl
  · rw [hr1]
    dsimp only
    rw [hr2]
    dsimp only
    cases hv3 : verifyRefreshToken (generateRefreshToken u.id u.email t0) t3 with
    | error e =>
      rw [refresh_error_eq _ _ _ e hv3]
      rfl
    | ok p3 =>
      have hp3 := verifyRefreshToken_ok_elim hv3
      subst hp3
      have hfind2 := findById_update_const
        ({ u with
            refreshToken := [{ token := generateRefreshToken u.id u.email t1, createdAt := t1, lastUsedAt := t1 },
              { token := generateRefreshToken u.id u.email t2, createdAt := t2, lastUsedAt := t2 }],
            refreshHistory := [{ token := generateRefreshToken u.id u.email t0, lastUsedAt := t2 }] } : UserDoc) hfind1 rfl
      refine refresh_absent_no_grace_not_200 _ _ t3 _ _ hv3 hfind2 ?_ ?_
      · dsimp only
        simp [List.find?, hne10, hne20]
      · dsimp only
        simp [List.find?, decide_eq_false hk3]

/-- C3 counterexample: at concrete times (login at second 1, rotations at
seconds 5 and 15), both grace rotations succeed but TWO active entries remain,
not the single entry the claim states. -/
theorem rotate_twice_within_grace_cex :
    (refresh [demoUser [{ token := generateRefreshToken "u1" "a@x.com" 1000, createdAt := 1000, lastUsedAt := 1000 }] []]
      (some (generateRefreshToken "u1" "a@x.com" 1000)) 5000).status = 200 ∧
    (refresh (refresh [demoUser [{ token := generateRefreshToken "u1" "a@x.com" 1000, createdAt := 1000, lastUsedAt := 1000 }] []]
        (some (generateRefreshToken "u1" "a@x.com" 1000)) 5000).db
      (some (generateRefreshToken "u1" "a@x.com" 1000)) 15000).status = 200 ∧
    (((findById (refresh (refresh
        [demoUser [{ token := generateRefreshToken "u1" "a@x.com" 1000, createdAt := 1000, lastUsedAt := 1000 }] []]
        (some (generateRefreshToken "u1" "a@x.com" 1000)) 5000).db
        (some (generateRefreshToken "u1" "a@x.com" 1000)) 15000).db "u1").map
      (fun w => w.refreshToken.length) == some 1) = false) ∧
    (findById (refresh (refresh
        [demoUser [{ token := generateRefreshToken "u1" "a@x.com" 1000, createdAt := 1000, lastUsedAt := 1000 }] []]
        (some (generateRefreshToken "u1" "a@x.com" 1000)) 5000).db
        (some (generateRefreshToken "u1" "a@x.com" 1000)) 15000).db "u1").map
      (fun w => w.refreshToken.length) = some 2 :=
  ⟨rfl, rfl, rfl, rfl⟩

/-- C3 witness: the amended statement at concrete times, with the third call
at second 60, after the grace window. -/
theorem rotate_twice_within_grace_witness :
    (refresh [demoUser [{ token := generateRefreshToken "u1" "a@x.com" 1000, createdAt := 1000, lastUsedAt := 1000 }] []]
      (some (generateRefreshToken "u1" "a@x.com" 1000)) 5000).status = 200 ∧
    (refresh (refresh [demoUser [{ token := generateRefreshToken "u1" "a@x.com" 1000, createdAt := 1000, lastUsedAt := 1000 }] []]
        (some (generateRefreshToken "u1" "a@x.com" 1000)) 5000).db
      (some (generateRefreshToken "u1" "a@x.com" 1000)) 15000).status = 200 ∧
    (((refresh (refresh (refresh
        [demoUser [{ token := generateRefreshToken "u1" "a@x.com" 1000, createdAt := 1000, lastUsedAt := 1000 }] []]
        (some (generateRefreshToken "u1" "a@x.com" 1000)) 5000).db
        (some (generateRefreshToken "u1" "a@x.com" 1000)) 15000).db
        (some (generateRefreshToken "u1" "a@x.com" 1000)) 60000).status == 200) = false) := by
  have h := rotate_twice_within_grace
    [demoUser [{ token := generateRefreshToken "u1" "a@x.com" 1000, createdAt := 1000, lastUsedAt := 1000 }] []]
    (demoUser [{ token := generateRefreshToken "u1" "a@x.com" 1000, createdAt := 1000, lastUsedAt := 1000 }] [])
    1000 5000 15000 60000 rfl rfl (by decide) (by decide) (by decide) (by decide)
    (by decide)
  exact ⟨h.1, h.2.2.2.1, h.2.2.2.2.2.2.2⟩

/-- C4 (amended): a successful updatePassword clears the ACTIVE refresh-token
set but leaves the ROTATED history slot untouched; afterwards a rotation
attempt with any verified token of that user succeeds exactly when the
leftover history still holds an entry retired within the 30-second grace
window, and fails otherwise. -/
theorem updatePassword_clears_active_keeps_history (db : DB)
    (uid cur npw : String) (u : UserDoc)
    (hu : findById db uid = some u)
    (hc : comparePassword u.password cur = true) :
    (updatePassword db uid cur npw).status = 200 ∧
    findById (updatePassword db uid cur npw).db uid =
      some { u with password := bcryptHash npw, refreshToken := [] } ∧
    (∀ tok nowMs p, verifyRefreshToken tok nowMs = .ok p → p.userId = uid →
      (((refresh (updatePassword db uid cur npw).db (some tok) nowMs).status = 200) ↔
        u.refreshHistory.any
          (fun t => decide (nowMs - t.lastUsedAt < 30 * 1000)) = true)) := by
  have hid : u.id = uid := findById_id hu
  have hpost : (updatePassword db uid cur npw).db =
      updateById db uid
        (fun _ => { u with password := bcryptHash npw, refreshToken := [] }) := by
    unfold updatePassword
    rw [hu]
    simp only [hc, if_true]
  have hfind2 : findById (updatePassword db uid cur npw).db uid =
      some { u with password := bcryptHash npw, refreshToken := [] } := by
    rw [hpost]
    exact findById_update_const _ hu hid
  refine ⟨?_, hfind2, ?_⟩
  · unfold updatePassword
    rw [hu]
    simp only [hc, if_true]
  · intro tok nowMs p hv hpid
    have hiff := refresh_absent_status_iff (updatePassword db uid cur npw).db tok
      nowMs p { u with password := bcryptHash npw, refreshToken := [] }
      hv (by rw [hpid]; exact hfind2) rfl
    simpa using hiff

/-- C4 counterexample: after a successful password change the history slot is
not empty, and a refresh token issued before the change still rotates
successfully through the leftover grace window. -/
theorem updatePassword_old_token_still_rotates_cex :
    (updatePassword
        [demoUser [{ token := activeTokB, createdAt := 200000, lastUsedAt := 200000 }]
          [{ token := generateRefreshToken "u1" "a@x.com" 300000, lastUsedAt := 995000 }]]
        "u1" "pw123456" "newpw999").status = 200 ∧
    (((findById (updatePassword
        [demoUser [{ token := activeTokB, createdAt := 200000, lastUsedAt := 200000 }]
          [{ token := generateRefreshToken "u1" "a@x.com" 300000, lastUsedAt := 995000 }]]
        "u1" "pw123456" "newpw999").db "u1").map
        (fun w => w.refreshHistory.length) == some 0) = false) ∧
    (refresh (updatePassword
        [demoUser [{ token := activeTokB, createdAt := 200000, lastUsedAt := 200000 }]
          [{ token := generateRefreshToken "u1" "a@x.com" 300000, lastUsedAt := 995000 }]]
        "u1" "pw123456" "newpw999").db
      (some (generateRefreshToken "u1" "a@x.com" 300000)) 1000000).status = 200 :=
  ⟨rfl, rfl, rfl⟩

/-- C4 witness: the amended statement at a concrete store and a concrete
rotation attempt after the change. -/
theorem updatePassword_clears_active_keeps_history_witness :
    (updatePassword
        [demoUser [{ token := activeTokA, createdAt := 100000, lastUsedAt := 100000 }]
          [{ token := activeTokB, lastUsedAt := 400000 }]]
        "u1" "pw123456" "npw12345").status = 200 ∧
    findById (updatePassword
        [demoUser [{ token := activeTokA, createdAt := 100000, lastUsedAt := 100000 }]
          [{ token := activeTokB, lastUsedAt := 400000 }]]
        "u1" "pw123456" "npw12345").db "u1" =
      some { demoUser [{ token := activeTokA, createdAt := 100000, lastUsedAt := 100000 }]
              [{ token := activeTokB, lastUsedAt := 400000 }] with
             password := bcryptHash "npw12345", refreshToken := [] } ∧
    (((refresh (updatePassword
        [demoUser [{ token := activeTokA, createdAt := 100000, lastUsedAt := 100000 }]
          [{ token := activeTokB, lastUsedAt := 400000 }]]
        "u1" "pw123456" "npw12345").db
        (some (generateRefreshToken "u1" "a@x.com" 100000)) 5000000).status = 200) ↔
      (demoUser [{ token := activeTokA, createdAt := 100000, lastUsedAt := 100000 }]
          [{ token := activeTokB, lastUsedAt := 400000 }]).refreshHistory.any
        (fun t => decide (5000000 - t.lastUsedAt < 30 * 1000)) = true) := by
  have h := updatePassword_clears_active_keeps_history
    [demoUser [{ token := activeTokA, createdAt := 100000, lastUsedAt := 100000 }]
      [{ token := activeTokB, lastUsedAt := 400000 }]]
    "u1" "pw123456" "npw12345"
    (demoUser [{ token := activeTokA, createdAt := 100000, lastUsedAt := 100000 }]
      [{ token := activeTokB, lastUsedAt := 400000 }]) rfl rfl
  exact ⟨h.1, h.2.1,
    h.2.2 (generateRefreshToken "u1" "a@x.com" 100000) 5000000
      { userId := "u1", email := "a@x.com", iat := 100,
        exp := 100 + refreshExpirySec } rfl rfl⟩

/-- C10: updatePassword with a wrong current password answers 401 and returns
the store exactly as it was, so the stored hash, the ACTIVE set and the
rotation history of every user are unchanged. -/
theorem updatePassword_wrong_current_unchanged (db : DB)
    (uid cur npw : String) (u : UserDoc)
    (hu : findById db uid = some u)
    (hc : comparePassword u.password cur = false) :
    updatePassword db uid cur npw =
      { status := 401, message := "Current password is incorrect", db := db } := by
  unfold updatePassword
  rw [hu]
  simp only [hc, Bool.false_eq_true, if_false]

/-- C10 witness: the statement at a concrete store and wrong password. -/
theorem updatePassword_wrong_current_unchanged_witness :
    updatePassword [demoUser [] []] "u1" "totallywrong" "whatever1" =
      { status := 401, message := "Current password is incorrect",
        db := [demoUser [] []] } :=
  updatePassword_wrong_current_unchanged [demoUser [] []] "u1" "totallywrong"
    "whatever1" (demoUser [] []) rfl rfl

end AuthCore
